import Mathlib

/-!
Verification development for the second-brain classification and
normalization pipeline (message_classifier.py, domain_classifier.py,
vault_scanner.py).

Conventions of the embedding:
* Python `float` values are modelled as rationals (`ℚ`); the claims under
  study only involve order, clamping and `min`, which floats and rationals
  decide identically on the inputs concerned.  Non-finite floats are out of
  the model.
* Values decoded from model JSON are `JVal`; Python's dynamic typing is kept:
  calling a string method on a non-string raises `AttributeError`, modelled
  with `Except PyErr`.
* Python `str.lower` is modelled by `(pyLower String)` (ASCII case folding).
* The completion client is modelled by the outcome of each `chat` call:
  either a typed error or the returned message content.
-/

namespace SecondBrain

/-- Python exceptions that can escape the embedded code paths. -/
inductive PyErr where
  | attributeError
deriving Repr, DecidableEq

/-- Whitespace characters recognised by Python's `str.strip()` (ASCII part). -/
def pySpace (c : Char) : Bool :=
  c = ' ' || c = '\t' || c = '\n' || c = '\r' || c = '\x0b' || c = '\x0c'

/-- Python `str.strip()`: drop leading and trailing whitespace. -/
def pyStrip (s : String) : String :=
  ⟨((s.data.dropWhile (fun c => pySpace c)).reverse.dropWhile (fun c => pySpace c)).reverse⟩

/-- Python `str.lower()` (ASCII case folding), defined over the character
list so that it computes by kernel reduction. -/
def pyLower (s : String) : String :=
  ⟨s.data.map Char.toLower⟩

/-- Decides whether one character list is a prefix of another. -/
def listIsPrefix (pat s : List Char) : Bool :=
  match pat with
  | [] => true
  | a :: as =>
    match s with
    | [] => false
    | b :: bs => if a = b then listIsPrefix as bs else false

/-- Python `s.startswith(pre)`. -/
def pyStartsWith (s pre : String) : Bool :=
  listIsPrefix pre.data s.data

/-- Auxiliary scan for `strIn`. -/
def strInAux (n : List Char) : List Char → Bool
  | [] => decide (n = [])
  | c :: t => listIsPrefix n (c :: t) || strInAux n t

/-- Python's `needle in hay` substring test. -/
def strIn (needle hay : String) : Bool :=
  strInAux needle.data hay.data

/-- JSON values as produced by Python's `json.loads`.  Objects keep the raw
key/value pairs in source order (duplicate keys possible). -/
inductive JVal where
  | null
  | bool (b : Bool)
  | num (q : ℚ)
  | str (s : String)
  | arr (elems : List JVal)
  | obj (fields : List (String × JVal))
deriving Repr, Inhabited

/-- Python truthiness of a decoded JSON value. -/
def jTruthy : JVal → Bool
  | .null => false
  | .bool b => b
  | .num q => decide (q ≠ 0)
  | .str s => decide (s ≠ "")
  | .arr es => !es.isEmpty
  | .obj fs => !fs.isEmpty

/-- Python `dict.get(k)` for a JSON object: duplicate keys are overridden by
later occurrences, so the last binding wins. -/
def jGet (d : List (String × JVal)) (k : String) : Option JVal :=
  ((d.filter (fun p => p.1 == k)).getLast?).map (fun p => p.2)

/-- Python `dict.get(k, default)`. -/
def jGetD (d : List (String × JVal)) (k : String) (v : JVal) : JVal :=
  (jGet d k).getD v

/-- Python `str(x)` rendering used when a decoded value reaches an f-string.
String values pass through unchanged; the rendering of non-string values is
an approximation (no claim depends on it). -/
def jvalPyStr : JVal → String
  | .str s => s
  | .num q => toString q
  | .bool true => "True"
  | .bool false => "False"
  | .null => "None"
  | .arr _ => "[...]"
  | .obj _ => "\x7b...\x7d"

/-- Python `x or y` where `x` is a decoded value and `y` a string default,
immediately rendered for use in an f-string. -/
def pyOrStr (x : JVal) (y : String) : String :=
  if jTruthy x then jvalPyStr x else y

/-! JSON decoding (`json.loads`). -/

/-- JSON structural whitespace. -/
def jsonWs (c : Char) : Bool :=
  c = ' ' || c = '\t' || c = '\n' || c = '\r'

/-- Drop leading JSON whitespace. -/
def skipWs : List Char → List Char
  | [] => []
  | c :: cs => if jsonWs c then skipWs cs else c :: cs

/-- Strip a literal keyword from the front of the input, when present. -/
def stripLit (w : String) (cs : List Char) : Option (List Char) :=
  if listIsPrefix w.data cs then some (cs.drop w.length) else none

/-- Value of a hexadecimal digit. -/
def hexVal (c : Char) : Option Nat :=
  let n := c.toNat
  if 48 ≤ n && n ≤ 57 then some (n - 48)
  else if 97 ≤ n && n ≤ 102 then some (n - 87)
  else if 65 ≤ n && n ≤ 70 then some (n - 55)
  else none

/-- Single-character JSON escapes as (escape letter, replacement) pairs. -/
def escTable : List (Char × Char) :=
  [('"', '"'), ('\\', '\\'), ('/', '/'), ('b', '\x08'), ('f', '\x0c'),
   ('n', '\n'), ('r', '\r'), ('t', '\t')]

/-- Resolve a single-character JSON escape via the table. -/
def escChar (e : Char) : Option Char :=
  (escTable.find? (fun p => p.1 == e)).map (fun p => p.2)

/-- Accumulate the value of a hexadecimal digit run. -/
def hexRunAux (acc : Nat) : List Char → Option Nat
  | [] => some acc
  | c :: t =>
    match hexVal c with
    | some v => hexRunAux (acc * 16 + v) t
    | none => none

/-- Parse the body of a JSON string (opening quote already consumed);
returns the decoded string and the remaining input. -/
def parseJString (acc : List Char) : List Char → Option (String × List Char)
  | [] => none
  | c :: rest =>
    if c = '"' then some (⟨acc.reverse⟩, rest)
    else if c = '\\' then
      match rest with
      | 'u' :: h1 :: h2 :: h3 :: h4 :: rest2 =>
        (match hexRunAux 0 [h1, h2, h3, h4] with
         | some code => parseJString (Char.ofNat code :: acc) rest2
         | none => none)
      | e :: rest2 =>
        (match escChar e with
         | some ch => parseJString (ch :: acc) rest2
         | none => none)
      | [] => none
    else parseJString (c :: acc) rest

/-- Numeric value of a digit character. -/
def digitVal (c : Char) : Nat := c.toNat - '0'.toNat

/-- Value of a digit run. -/
def digitsToNat (ds : List Char) : Nat :=
  ds.foldl (fun n c => n * 10 + digitVal c) 0

/-- Parse the optional fraction and exponent after the integer part of a
JSON number, producing the (nonnegative) magnitude. -/
def parseJsonNumTail (ip : Nat) (cs : List Char) : Option (ℚ × List Char) :=
  let (frac, cs1) :=
    match cs with
    | '.' :: r =>
      let (ds, r2) := r.span Char.isDigit
      if ds = [] then (none, cs) else (some ds, r2)
    | _ => (none, cs)
  match frac, cs1 with
  | none, '.' :: _ => none
  | fr, cs2 =>
    let base : ℚ :=
      (ip : ℚ) + (match fr with
        | some ds => (digitsToNat ds : ℚ) / ((10 : ℚ) ^ ds.length)
        | none => 0)
    let (expo, cs3) :=
      match cs2 with
      | 'e' :: r => (some r, cs2)
      | 'E' :: r => (some r, cs2)
      | _ => (none, cs2)
    match expo with
    | none =>
      some (base, cs3)
    | some r =>
      let (esign, r1) :=
        match r with
        | '+' :: t => (1, t)
        | '-' :: t => (-1, t)
        | _ => ((1 : Int), r)
      let (eds, r2) := r1.span Char.isDigit
      if eds = [] then none
      else
        let e := digitsToNat eds
        let scaled := if esign = 1 then base * (10 : ℚ) ^ e else base / (10 : ℚ) ^ e
        some (scaled, r2)

/-- Magnitude part of a JSON number: integer part with no leading zeros,
optional fraction and exponent. -/
def parseJsonNumMag (cs1 : List Char) : Option (ℚ × List Char) :=
  match cs1 with
  | '0' :: r => parseJsonNumTail 0 r
  | c :: r =>
    if c.isDigit then
      let (ds, r2) := (c :: r).span Char.isDigit
      parseJsonNumTail (digitsToNat ds) r2
    else none
  | [] => none

/-- Parse a JSON number (RFC 8259 grammar: an optional minus applied to the
magnitude). -/
def parseJsonNum (cs : List Char) : Option (ℚ × List Char) :=
  match cs with
  | '-' :: r => (parseJsonNumMag r).map (fun p => (-p.1, p.2))
  | _ => parseJsonNumMag cs

/-- Mode of the JSON parser loop: a single value, the remaining items of an
array, or the remaining members of an object (with the accumulators). -/
inductive PMode where
  | val
  | arrItems (acc : List JVal)
  | objItems (acc : List (String × JVal))

/-- Fuel-bounded JSON parser; structural recursion on the fuel keeps it
kernel-reducible.  In `val` mode it parses one JSON value; the other modes
are the comma-separated item loops of arrays and objects. -/
def parseJ : Nat → PMode → List Char → Option (JVal × List Char)
  | 0, _, _ => none
  | fuel + 1, .val, cs =>
    let cs0 := skipWs cs
    (match stripLit "null" cs0 with
     | some r => some (.null, r)
     | none =>
       match stripLit "true" cs0 with
       | some r => some (.bool true, r)
       | none =>
         match stripLit "false" cs0 with
         | some r => some (.bool false, r)
         | none =>
           match cs0 with
           | '"' :: r => (parseJString [] r).map (fun p => (.str p.1, p.2))
           | '[' :: r =>
             (match skipWs r with
              | ']' :: r2 => some (.arr [], r2)
              | _ => parseJ fuel (.arrItems []) r)
           | '{' :: r =>
             (match skipWs r with
              | '}' :: r2 => some (.obj [], r2)
              | _ => parseJ fuel (.objItems []) r)
           | cs2 => (parseJsonNum cs2).map (fun p => (.num p.1, p.2)))
  | fuel + 1, .arrItems acc, cs => do
    let (v, r) ← parseJ fuel .val cs
    match skipWs r with
    | ',' :: r2 => parseJ fuel (.arrItems (v :: acc)) r2
    | ']' :: r2 => some (.arr (v :: acc).reverse, r2)
    | _ => none
  | fuel + 1, .objItems acc, cs =>
    match skipWs cs with
    | '"' :: r => do
      let (k, r2) ← parseJString [] r
      match skipWs r2 with
      | ':' :: r3 => do
        let (v, r4) ← parseJ fuel .val r3
        match skipWs r4 with
        | ',' :: r5 => parseJ fuel (.objItems ((k, v) :: acc)) r5
        | '}' :: r5 => some (.obj ((k, v) :: acc).reverse, r5)
        | _ => none
      | _ => none
    | _ => none

/-- Parse one JSON value, fuel-bounded. -/
def parseJVal (fuel : Nat) (cs : List Char) : Option (JVal × List Char) :=
  parseJ fuel .val cs

/-- Python `json.loads`: the whole input must be one JSON value surrounded by
optional whitespace; `none` models `json.JSONDecodeError`. -/
def jsonLoads (s : String) : Option JVal :=
  match parseJVal (2 * s.length + 2) s.data with
  | some (v, rest) => if skipWs rest = [] then some v else none
  | none => none

/-- Python `float(s)` on a string: optional surrounding whitespace and sign,
then digits with an optional single dot and optional exponent.  Nonfinite
literals (`inf`, `nan`) are outside the rational model. -/
def pyFloatOfString (s : String) : Option ℚ :=
  let cs := ((s.data.dropWhile (fun c => pySpace c)).reverse.dropWhile (fun c => pySpace c)).reverse
  let sgn : ℚ := if cs.head? = some '-' then -1 else 1
  let cs1 := if cs.head? = some '-' || cs.head? = some '+' then cs.drop 1 else cs
  let (ip, r1) := cs1.span Char.isDigit
  let (fp, r2) :=
    match r1 with
    | '.' :: t => t.span Char.isDigit
    | _ => ([], r1)
  let expo : Option Int :=
    match r2 with
    | [] => some 0
    | 'e' :: t | 'E' :: t =>
      let (esign, t1) :=
        match t with
        | '+' :: u => ((1 : Int), u)
        | '-' :: u => ((-1 : Int), u)
        | _ => ((1 : Int), t)
      let (eds, t2) := t1.span Char.isDigit
      if eds = [] || t2 ≠ [] then none else some (esign * (digitsToNat eds : Int))
    | _ => none
  if ip = [] && fp = [] then none
  else
    match expo with
    | none => none
    | some e =>
      let base : ℚ := (digitsToNat ip : ℚ) + (digitsToNat fp : ℚ) / (10 : ℚ) ^ fp.length
      let scaled := if 0 ≤ e then base * (10 : ℚ) ^ e.toNat else base / (10 : ℚ) ^ (-e).toNat
      some (sgn * scaled)

/-- Python `float(x)` on a decoded JSON value; `none` models the
`TypeError` / `ValueError` raised on non-coercible values. -/
def pyFloat : JVal → Option ℚ
  | .num q => some q
  | .bool b => some (if b then 1 else 0)
  | .str s => pyFloatOfString s
  | .null => none
  | .arr _ => none
  | .obj _ => none

/-- Python `min(a, b)` on numbers (via the boolean comparison `Rat.blt`,
which computes by kernel reduction). -/
def pyMin (a b : ℚ) : ℚ :=
  if Rat.blt b a then b else a

/-- Python `max(a, b)` on numbers. -/
def pyMax (a b : ℚ) : ℚ :=
  if Rat.blt a b then b else a

/-- Insert a string into a lexicographically sorted list. -/
def insertSorted (s : String) : List String → List String
  | [] => [s]
  | x :: xs => if x < s then x :: insertSorted s xs else s :: x :: xs

/-- Sort a list of strings lexicographically (Python `sorted`). -/
def sortStrings (l : List String) : List String :=
  l.foldr insertSorted []

/-- Remove adjacent duplicates from a sorted list. -/
def dedupSorted : List String → List String
  | [] => []
  | [x] => [x]
  | x :: y :: r => if x == y then dedupSorted (y :: r) else x :: dedupSorted (y :: r)

/-- Python `sorted(set(l))` for strings. -/
def sortedDedup (l : List String) : List String :=
  dedupSorted (sortStrings l)

/-- Three-level vault structure: domain -> PARA type -> subject list, with
the insertion order of the Python dicts preserved. -/
abbrev VStructure := List (String × List (String × List String))

/-- Python dict membership/indexing: first (unique) binding for a key. -/
def dLookup {α : Type} (d : List (String × α)) (k : String) : Option α :=
  (d.find? (fun p => p.1 == k)).map (fun p => p.2)

/-- Vocabulary extracted by `VaultScanner.get_vocabulary` (all three keys are
always present, so the defensive `dict.get` defaults in the classifier
collapse to plain field access). -/
structure Vocabulary where
  domains : List String
  para_types : List String
  subjects : List String
deriving Repr, DecidableEq

/-- Typed errors raised by the completion client (`ollama_client.py`); each
carries its message (`str(e)`).  `other` stands for plain `OllamaError`
instances. -/
inductive OllamaErr where
  | serverNotRunning (msg : String)
  | timeout (msg : String)
  | modelNotFound (msg : String)
  | other (msg : String)
deriving Repr, DecidableEq

/-- Python `str(e)` for a client error. -/
def ollamaErrMsg : OllamaErr → String
  | .serverNotRunning m => m
  | .timeout m => m
  | .modelNotFound m => m
  | .other m => m

/-- Outcome of one `chat` call: a typed error, or the returned content
(`response.get("message", {}).get("content", "")` yields `""` when the
content key is absent, modelled by `Option String`). -/
abbrev ChatOutcome := Except OllamaErr (Option String)

namespace MessageClassifier

/-- Valid categories for message classification. -/
def VALID_CATEGORIES : List String :=
  ["meeting", "task", "idea", "reference", "journal", "question"]

/-- Valid PARA types. -/
def VALID_PARA_TYPES : List String :=
  ["1_Projects", "2_Areas", "3_Resources", "4_Archive"]

/-- Default domain used whenever the raw value cannot be resolved. -/
def DEFAULT_DOMAIN : String := "Personal"

/-- Default PARA type. -/
def DEFAULT_PARA_TYPE : String := "3_Resources"

/-- Default category. -/
def DEFAULT_CATEGORY : String := "reference"

/-- Default subject. -/
def DEFAULT_SUBJECT : String := "general"

/-- Default confidence. -/
def DEFAULT_CONFIDENCE : ℚ := 1/2

/-- Result of message classification (`message_classifier.ClassificationResult`). -/
structure ClassificationResult where
  domain : String
  para_type : String
  subject : String
  category : String
  confidence : ℚ
  reasoning : String
  raw_response : Option String
deriving Repr, DecidableEq

/-- Scan for the regex match of `\x7b[^\x7b\x7d]*\x7d`: the argument is the
input after an opening brace; collect non-brace characters, succeed at a
closing brace, restart at a nested opening brace (the regex cannot match
there, so the engine advances to the next opening brace). -/
def braceScan (acc : List Char) : List Char → Option String
  | [] => none
  | '}' :: _ => some ⟨'{' :: acc.reverse ++ ['}']⟩
  | '{' :: rest => braceScan [] rest
  | c :: rest => braceScan (c :: acc) rest

/-- Leftmost match of `re.search(r"\x7b[^\x7b\x7d]*\x7d", raw, re.DOTALL)`:
the first brace-delimited block containing no nested braces. -/
def findBraceBlock (s : String) : Option String :=
  match s.data.dropWhile (fun c => c ≠ '{') with
  | _ :: rest => braceScan [] rest
  | [] => none

/-- `MessageClassifier._parse_json_single`: extract the first brace block and
decode it as JSON; any decode failure yields `none`. -/
def parse_json_single (raw : String) : Option (List (String × JVal)) :=
  match findBraceBlock raw with
  | some block =>
    match jsonLoads block with
    | some (.obj d) => some d
    | _ => none
  | none => none

/-- Drop the `\s*` of the field regexes (ASCII whitespace). -/
def wsStar (cs : List Char) : List Char :=
  cs.dropWhile (fun c => pySpace c)

/-- Match the leading `"key"\s*:\s*` part of a field regex at the current
position, returning the rest of the input. -/
def tryKeyColon (key : String) (cs : List Char) : Option (List Char) :=
  let pat := '"' :: key.data ++ ['"']
  if listIsPrefix pat cs then
    match wsStar (cs.drop pat.length) with
    | ':' :: r2 => some (wsStar r2)
    | _ => none
  else none

/-- Capture group of `"([^"]+)"`: a quoted nonempty run of non-quote
characters. -/
def tryStrCapture (cs : List Char) : Option String :=
  match cs with
  | '"' :: r =>
    let (body, r2) := r.span (fun c => c ≠ '"')
    if body.isEmpty then none
    else
      match r2 with
      | '"' :: _ => some ⟨body⟩
      | _ => none
  | _ => none

/-- Capture group of `([0-9.]+)`: a nonempty greedy run of digits and dots. -/
def tryNumCapture (cs : List Char) : Option String :=
  let (body, _) := cs.span (fun c => c.isDigit || c = '.')
  if body.isEmpty then none else some ⟨body⟩

/-- Leftmost-match scan of `re.search` for one field pattern. -/
def fieldSearch (key : String) (capture : List Char → Option String) :
    List Char → Option String
  | [] => none
  | c :: t =>
    match (tryKeyColon key (c :: t)).bind capture with
    | some v => some v
    | none => fieldSearch key capture t

/-- Field names extracted by `_extract_with_regex`, in pattern-dict order. -/
def msgFields : List String :=
  ["domain", "para_type", "subject", "category", "confidence", "reasoning"]

/-- Per-field extraction of `_extract_with_regex`: string fields use the
quoted-capture pattern; `confidence` uses the numeric pattern and coerces
with `float`, defaulting on `ValueError`. -/
def extractField (raw : String) : String → Option JVal
  | "confidence" =>
    (fieldSearch "confidence" tryNumCapture raw.data).map
      (fun v => .num ((pyFloatOfString v).getD DEFAULT_CONFIDENCE))
  | k => (fieldSearch k tryStrCapture raw.data).map (fun v => .str v)

/-- `MessageClassifier._extract_with_regex`: collect the fields whose
pattern matches; absent fields are omitted. -/
def extract_with_regex (raw : String) : List (String × JVal) :=
  msgFields.filterMap (fun k => (extractField raw k).map (fun v => (k, v)))

/-- Raw field mapping used by `_parse_response`: the JSON attempt, falling
back to regex extraction only when the JSON attempt returned `None`
(an empty decoded dict is kept as-is). -/
def parsed_fields (raw : String) : List (String × JVal) :=
  (parse_json_single raw).getD (extract_with_regex raw)

/-- `MessageClassifier._validate_domain`. -/
def validate_domain (domain : JVal) (valid_domains : List String) : Except PyErr String :=
  if jTruthy domain = false then .ok DEFAULT_DOMAIN
  else
    match domain with
    | .str s =>
      let dl := (pyLower s)
      match valid_domains.find? (fun v => (pyLower v) == dl) with
      | some v => .ok v
      | none =>
        match valid_domains.find? (fun v => strIn dl (pyLower v) || strIn (pyLower v) dl) with
        | some v => .ok v
        | none => .ok DEFAULT_DOMAIN
    | _ => .error .attributeError

/-- Split a character list on underscores (Python `s.split("_")`). -/
def splitUnderscoreChars : List Char → List (List Char)
  | [] => [[]]
  | '_' :: t => [] :: splitUnderscoreChars t
  | c :: t =>
    match splitUnderscoreChars t with
    | [] => [[c]]
    | g :: gs => (c :: g) :: gs

/-- Python `s.split("_")[-1]`. -/
def lastUnderscoreToken (s : String) : String :=
  ⟨(splitUnderscoreChars s.data).getLastD s.data⟩

/-- `MessageClassifier._validate_para`. -/
def validate_para (para_type : JVal) : Except PyErr String :=
  if jTruthy para_type = false then .ok DEFAULT_PARA_TYPE
  else
    match para_type with
    | .str s =>
      let pl := (pyLower s)
      match VALID_PARA_TYPES.find? (fun v => (pyLower v) == pl) with
      | some v => .ok v
      | none =>
        match VALID_PARA_TYPES.find?
            (fun v => strIn pl (pyLower v) || strIn (lastUnderscoreToken (pyLower v)) pl) with
        | some v => .ok v
        | none => .ok DEFAULT_PARA_TYPE
    | _ => .error .attributeError

/-- Subject search space of tier (a): subjects filed under the chosen
domain and PARA type. -/
def subjectsTierA (struct : VStructure) (domain para_type : String) : List String :=
  match dLookup struct domain with
  | some pd => (dLookup pd para_type).getD []
  | none => []

/-- Subject search space of tier (b): all subjects under the chosen domain,
in dict iteration order. -/
def subjectsTierB (struct : VStructure) (domain : String) : List String :=
  (((dLookup struct domain).getD []).map (fun p => p.2)).flatten

/-- Subject search space of tier (c): all subjects in the whole structure,
in dict iteration order. -/
def subjectsTierC (struct : VStructure) : List String :=
  (struct.map (fun p => (p.2.map (fun q => q.2)).flatten)).flatten

/-- `MessageClassifier._validate_subject`. -/
def validate_subject (subject : JVal) (struct : VStructure) (domain para_type : String) :
    Except PyErr String :=
  if jTruthy subject = false then .ok DEFAULT_SUBJECT
  else
    match subject with
    | .str s =>
      if (pyLower s) == "general" then .ok DEFAULT_SUBJECT
      else
        let sl := (pyLower s)
        match (subjectsTierA struct domain para_type).find? (fun v => (pyLower v) == sl) with
        | some v => .ok v
        | none =>
          match (subjectsTierB struct domain).find? (fun v => (pyLower v) == sl) with
          | some v => .ok v
          | none =>
            match (subjectsTierC struct).find? (fun v => (pyLower v) == sl) with
            | some v => .ok v
            | none => .ok DEFAULT_SUBJECT
    | _ => .error .attributeError

/-- `MessageClassifier._validate_category`. -/
def validate_category (category : JVal) : Except PyErr String :=
  if jTruthy category = false then .ok DEFAULT_CATEGORY
  else
    match category with
    | .str s =>
      let cl := (pyLower s)
      match VALID_CATEGORIES.find? (fun v => (pyLower v) == cl) with
      | some v => .ok v
      | none => .ok DEFAULT_CATEGORY
    | _ => .error .attributeError

/-- `MessageClassifier._validate_confidence`: coerce with `float` and clamp
into `[0, 1]`; non-coercible values yield the default. -/
def validate_confidence (confidence : JVal) : ℚ :=
  match pyFloat confidence with
  | some c => pyMax 0 (pyMin 1 c)
  | none => DEFAULT_CONFIDENCE

/-- `MessageClassifier._parse_response`: raw field mapping (JSON first, regex
fallback), then field-by-field validation.  A non-string truthy raw field
value propagates the `AttributeError` of the validators. -/
def parse_response (raw_response : String) (vocabulary : Vocabulary) (struct : VStructure) :
    Except PyErr ClassificationResult := do
  let parsed := parsed_fields raw_response
  let valid_domains := vocabulary.domains
  let domain ← validate_domain (jGetD parsed "domain" (.str "")) valid_domains
  let para_type ← validate_para (jGetD parsed "para_type" (.str ""))
  let subject ← validate_subject (jGetD parsed "subject" (.str "")) struct domain para_type
  let category ← validate_category (jGetD parsed "category" (.str ""))
  let confidence := validate_confidence (jGetD parsed "confidence" (.num DEFAULT_CONFIDENCE))
  let reasoning := jvalPyStr (jGetD parsed "reasoning" (.str "Classification by LLM"))
  return ⟨domain, para_type, subject, category, confidence, reasoning, some raw_response⟩

/-- SOP section interpolated into every prompt when SOP text is present. -/
def sopSection (sop_text : String) : String :=
  if sop_text ≠ "" then "\nSOP (follow when classifying):\n" ++ sop_text ++ "\n" else ""

/-- `MessageClassifier._build_prompt` (single-shot prompt). -/
def build_prompt (message : String) (vocabulary : Vocabulary) (struct : VStructure)
    (sop_text : String) : String :=
  let domains := String.intercalate ", " vocabulary.domains
  let subjects_by_domain := struct.filterMap (fun p =>
    let all_subjects := (p.2.map (fun q => q.2)).flatten
    if all_subjects.isEmpty then none
    else some ("  " ++ p.1 ++ ": " ++ String.intercalate ", " (sortedDedup all_subjects)))
  let subjects_section :=
    if subjects_by_domain.isEmpty then "  (no subjects discovered)"
    else String.intercalate "\n" subjects_by_domain
  "You are a classification assistant for a personal knowledge management system.\n\n" ++
  "VOCABULARY (use ONLY these values):\nDomains: " ++ domains ++ "\n" ++
  "PARA Types: 1_Projects, 2_Areas, 3_Resources, 4_Archive\n" ++
  "Categories: meeting, task, idea, reference, journal, question\n\n" ++
  "SUBJECTS by domain:\n" ++ subjects_section ++ "\n" ++ sopSection sop_text ++ "\n" ++
  "MESSAGE TO CLASSIFY:\n\"" ++ message ++ "\"\n\n" ++
  "Respond with ONLY this JSON (no other text):\n" ++
  "\x7b\"domain\": \"...\", \"para_type\": \"...\", \"subject\": \"...\", \"category\": \"...\", \"confidence\": 0.0-1.0, \"reasoning\": \"...\"\x7d\n\n" ++
  "RULES:\n- domain MUST be one from the Domains list\n- para_type MUST be one from PARA Types\n" ++
  "- subject should be from the domain\x27s subjects, or \"general\" if none fit\n" ++
  "- category MUST be one from Categories\n- confidence between 0.0 and 1.0 based on certainty\n" ++
  "- reasoning should be a brief explanation"

/-- Step 1 prompt of the pipeline (domain only). -/
def pipeline_domain_prompt (message : String) (valid_domains : List String)
    (sop_text : String) : String :=
  "You classify messages into ONE domain. Domains: " ++
  String.intercalate ", " valid_domains ++ "." ++ sopSection sop_text ++ "\n\n" ++
  "MESSAGE: \"" ++ message ++ "\"\n\n" ++
  "Respond with ONLY this JSON: \x7b\"domain\": \"...\", \"confidence\": 0.0-1.0, \"reasoning\": \"...\"\x7d\n" ++
  "domain MUST be one of: " ++ String.intercalate ", " valid_domains ++ "."

/-- Step 2 prompt of the pipeline (PARA type, given the chosen domain). -/
def pipeline_para_prompt (message domain : String) (sop_text : String) : String :=
  "You classify messages into ONE PARA type. Message: \"" ++ message ++
  "\". Domain (already chosen): " ++ domain ++ "." ++ sopSection sop_text ++ "\n\n" ++
  "PARA Types: 1_Projects, 2_Areas, 3_Resources, 4_Archive.\n\n" ++
  "Respond with ONLY this JSON: \x7b\"para_type\": \"...\", \"confidence\": 0.0-1.0, \"reasoning\": \"...\"\x7d\n" ++
  "para_type MUST be one of: 1_Projects, 2_Areas, 3_Resources, 4_Archive."

/-- Step 3 prompt of the pipeline (subject and category, given domain and
PARA type). -/
def pipeline_step3_prompt (message domain para_type : String) (struct : VStructure)
    (sop_text : String) : String :=
  let subjects_for_domain := subjectsTierB struct domain
  let subjects_str :=
    if subjects_for_domain.isEmpty then "general"
    else String.intercalate ", " (sortedDedup subjects_for_domain)
  "You classify message into subject and category. Message: \"" ++ message ++
  "\". Domain: " ++ domain ++ ". PARA: " ++ para_type ++ "." ++ sopSection sop_text ++ "\n\n" ++
  "Subjects for this domain: " ++ subjects_str ++ ". Use one of these or \"general\".\n" ++
  "Categories: meeting, task, idea, reference, journal, question.\n\n" ++
  "Respond with ONLY this JSON: \x7b\"subject\": \"...\", \"category\": \"...\", \"confidence\": 0.0-1.0, \"reasoning\": \"...\"\x7d"

/-- `MessageClassifier._parse_domain_step`; `ok none` models the
`(None, None, None)` returned when no (nonempty) JSON dict was decoded. -/
def parse_domain_step (raw : String) (valid_domains : List String) :
    Except PyErr (Option (String × ℚ × String)) :=
  match parse_json_single raw with
  | none => .ok none
  | some [] => .ok none
  | some parsed => do
    let domain ← validate_domain (jGetD parsed "domain" (.str "")) valid_domains
    let conf := validate_confidence (jGetD parsed "confidence" (.num DEFAULT_CONFIDENCE))
    let reason := pyOrStr (jGetD parsed "reasoning" (.str "")) "Pipeline step"
    return some (domain, conf, reason)

/-- `MessageClassifier._parse_para_step`. -/
def parse_para_step (raw : String) : Except PyErr (Option (String × ℚ × String)) :=
  match parse_json_single raw with
  | none => .ok none
  | some [] => .ok none
  | some parsed => do
    let para ← validate_para (jGetD parsed "para_type" (.str ""))
    let conf := validate_confidence (jGetD parsed "confidence" (.num DEFAULT_CONFIDENCE))
    let reason := pyOrStr (jGetD parsed "reasoning" (.str "")) "Pipeline step"
    return some (para, conf, reason)

/-- `MessageClassifier._parse_subject_category_step`. -/
def parse_subject_category_step (raw : String) (struct : VStructure)
    (domain para_type : String) : Except PyErr (Option (String × String × ℚ × String)) :=
  match parse_json_single raw with
  | none => .ok none
  | some [] => .ok none
  | some parsed => do
    let subject ← validate_subject (jGetD parsed "subject" (.str "")) struct domain para_type
    let category ← validate_category (jGetD parsed "category" (.str ""))
    let conf := validate_confidence (jGetD parsed "confidence" (.num DEFAULT_CONFIDENCE))
    let reason := pyOrStr (jGetD parsed "reasoning" (.str "")) "Pipeline step"
    return some (subject, category, conf, reason)

/-- Fallback substitution after step 1 (`if domain is None: ...`). -/
def resolve_domain_step : Option (String × ℚ × String) → String × Option ℚ × String
  | some (d, c, r) => (d, some c, r)
  | none => (DEFAULT_DOMAIN, some DEFAULT_CONFIDENCE, "fallback default")

/-- Fallback substitution after step 2 (`if para_type is None: ...`). -/
def resolve_para_step : Option (String × ℚ × String) → String × Option ℚ × String
  | some (p, c, r) => (p, some c, r)
  | none => (DEFAULT_PARA_TYPE, some DEFAULT_CONFIDENCE, "fallback default")

/-- Fallback substitution after step 3 (the three independent `is None`
checks; the parse step returns all-`None` or no `None` at all). -/
def resolve_subject_category_step :
    Option (String × String × ℚ × String) → String × String × Option ℚ × String
  | some (s, c, q, r) => (s, c, some q, r)
  | none => (DEFAULT_SUBJECT, DEFAULT_CATEGORY, some DEFAULT_CONFIDENCE, "fallback default")

/-- Errors that can escape `MessageClassifier.classify`: a re-raised client
error, or a Python-level error from the validators. -/
inductive ClassifyErr where
  | ollama (e : OllamaErr)
  | py (e : PyErr)
deriving Repr, DecidableEq

/-- `MessageClassifier.classify` in single-shot mode.  The completion client
is modelled by the outcome of its one `chat` call; the second component
counts the `chat` calls issued. -/
def classify_single (chat1 : ChatOutcome) (vocabulary : Vocabulary) (struct : VStructure)
    (sop_text : String) (message : String) :
    Except ClassifyErr ClassificationResult × Nat :=
  let _prompt := build_prompt message vocabulary struct sop_text
  match chat1 with
  | .error e => (.error (.ollama e), 1)
  | .ok content =>
    let raw_response := content.getD ""
    match parse_response raw_response vocabulary struct with
    | .ok r => (.ok r, 1)
    | .error pe => (.error (.py pe), 1)

/-- `MessageClassifier._classify_pipeline`: three chained steps, each with
its own chat call, parse and fallback; aggregate confidence and composite
reasoning at the end. -/
def classify_pipeline (chat1 chat2 chat3 : ChatOutcome) (vocabulary : Vocabulary)
    (struct : VStructure) (sop_text : String) (message : String) :
    Except ClassifyErr ClassificationResult × Nat :=
  let valid_domains := vocabulary.domains
  let _prompt1 := pipeline_domain_prompt message valid_domains sop_text
  match chat1 with
  | .error e => (.error (.ollama e), 1)
  | .ok c1 =>
    let raw1 := c1.getD ""
    match parse_domain_step raw1 valid_domains with
    | .error pe => (.error (.py pe), 1)
    | .ok st1 =>
      let (domain, conf1, reason1) := resolve_domain_step st1
      let _prompt2 := pipeline_para_prompt message domain sop_text
      match chat2 with
      | .error e => (.error (.ollama e), 2)
      | .ok c2 =>
        let raw2 := c2.getD ""
        match parse_para_step raw2 with
        | .error pe => (.error (.py pe), 2)
        | .ok st2 =>
          let (para_type, conf2, reason2) := resolve_para_step st2
          let _prompt3 := pipeline_step3_prompt message domain para_type struct sop_text
          match chat3 with
          | .error e => (.error (.ollama e), 3)
          | .ok c3 =>
            let raw3 := c3.getD ""
            match parse_subject_category_step raw3 struct domain para_type with
            | .error pe => (.error (.py pe), 3)
            | .ok st3 =>
              let (subject, category, conf3, reason3) := resolve_subject_category_step st3
              let confidence :=
                match conf1, conf2, conf3 with
                | some a, some b, some c => pyMin (pyMin a b) c
                | _, _, _ => DEFAULT_CONFIDENCE
              let reasoning := "Pipeline: domain=" ++ reason1 ++ "; para=" ++ reason2 ++
                "; subject+cat=" ++ reason3
              (.ok ⟨domain, para_type, subject, category, confidence, reasoning,
                some ("domain: " ++ raw1 ++ "\npara: " ++ raw2 ++ "\nsubject_category: " ++ raw3)⟩, 3)

/-- Classification strategy selected by the `CLASSIFICATION_MODE`
environment variable. -/
inductive ClassificationMode where
  | single
  | pipeline
deriving Repr, DecidableEq

/-- `MessageClassifier.classify`: dispatch on the configured mode. -/
def classify (mode : ClassificationMode) (chat1 chat2 chat3 : ChatOutcome)
    (vocabulary : Vocabulary) (struct : VStructure) (sop_text : String) (message : String) :
    Except ClassifyErr ClassificationResult × Nat :=
  match mode with
  | .pipeline => classify_pipeline chat1 chat2 chat3 vocabulary struct sop_text message
  | .single => classify_single chat1 vocabulary struct sop_text message

end MessageClassifier

namespace DomainClassifier

/-- Result of domain classification (`domain_classifier.ClassificationResult`).
Python stores the decoded reasoning value unchanged, so the field keeps the
`JVal` type. -/
structure ClassificationResult where
  domain : String
  confidence : ℚ
  reasoning : JVal
  raw_response : Option String
deriving Repr

/-- `DomainClassifier._normalize_domain`: case-insensitive match against the
vocabulary, `none` when nothing matches. -/
def normalize_domain (domain : String) (valid_domains : List String) : Option String :=
  let dl := pyStrip (pyLower domain)
  valid_domains.find? (fun v => (pyLower v) == dl)

/-- `DomainClassifier._extract_domain_fallback`: first vocabulary domain
appearing (case-insensitively) anywhere in the response. -/
def extract_domain_fallback (response : String) (valid_domains : List String) :
    Option String :=
  valid_domains.find? (fun dm => strIn (pyLower dm) (pyLower response))

/-- Result built on the JSON-failure path of `_parse_response`. -/
def fallback_result (response : String) (valid_domains : List String) :
    ClassificationResult :=
  match extract_domain_fallback response valid_domains with
  | some dm => ⟨dm, 3/10, .str "Extracted from malformed response", some response⟩
  | none => ⟨"unknown", 0, .str "Failed to parse response", some response⟩

/-- `DomainClassifier._parse_response`: strict `json.loads` on the whole
response; decode errors and confidence-coercion errors fall back to regex
extraction; a non-string domain value raises `AttributeError` (uncaught). -/
def parse_response (response : String) (valid_domains : List String) :
    Except PyErr ClassificationResult :=
  match jsonLoads response with
  | none => .ok (fallback_result response valid_domains)
  | some (.obj data) =>
    let raw_domain := jGetD data "domain" (.str "unknown")
    let raw_confidence := jGetD data "confidence" (.num (1/2))
    let reasoning0 := jGetD data "reasoning" (.str "")
    match raw_domain with
    | .str rd =>
      let (normalized_domain, reasoning) :=
        match normalize_domain rd valid_domains with
        | some nd => (nd, reasoning0)
        | none => ("unknown", JVal.str ("Invalid domain \x27" ++ rd ++ "\x27 - not in vocabulary"))
      match pyFloat raw_confidence with
      | some c => .ok ⟨normalized_domain, pyMax 0 (pyMin 1 c), reasoning, some response⟩
      | none => .ok (fallback_result response valid_domains)
    | _ => .error .attributeError
  | some _ => .error .attributeError

/-- `DomainClassifier._build_prompt` (the `CLASSIFICATION_PROMPT` template). -/
def build_prompt (message : String) (domains : List String) : String :=
  "You are a message classification assistant. Classify the following message into ONE of these domains:\n" ++
  String.intercalate ", " domains ++ "\n\nMessage: " ++ message ++
  "\n\nRespond in this exact JSON format, with no additional text:\n" ++
  "\x7b\"domain\": \"<domain>\", \"confidence\": <0.0-1.0>, \"reasoning\": \"<brief explanation>\"\x7d\n\n" ++
  "IMPORTANT:\n- Only use domains from the list above\n" ++
  "- confidence should be between 0.0 and 1.0\n" ++
  "- If unsure, use a lower confidence value\n- Respond ONLY with valid JSON"

/-- `DomainClassifier.classify`.  Empty or whitespace-only input and an
empty vocabulary short-circuit before any prompt is built; all typed client
errors are caught and converted to an `unknown` result.  The second
component counts the `chat` calls issued. -/
def classify (chat1 : ChatOutcome) (valid_domains : List String) (message : String) :
    Except PyErr ClassificationResult × Nat :=
  if message == "" || pyStrip message == "" then
    (.ok ⟨"unknown", 0, .str "Empty message cannot be classified", none⟩, 0)
  else if valid_domains.isEmpty then
    (.ok ⟨"unknown", 0, .str "No domains available in vocabulary", none⟩, 0)
  else
    let _prompt := build_prompt message valid_domains
    match chat1 with
    | .error (.serverNotRunning _) =>
      (.ok ⟨"unknown", 0, .str "Error: Ollama server not running", none⟩, 1)
    | .error (.timeout _) =>
      (.ok ⟨"unknown", 0, .str "Error: Ollama request timed out", none⟩, 1)
    | .error e =>
      (.ok ⟨"unknown", 0, .str ("Error: " ++ ollamaErrMsg e), none⟩, 1)
    | .ok content =>
      match parse_response (content.getD "") valid_domains with
      | .ok r => (.ok r, 1)
      | .error pe => (.error pe, 1)

end DomainClassifier

namespace VaultScanner

/-- Cache time-to-live default (hours). -/
def DEFAULT_TTL_HOURS : ℚ := 6

mutual

/-- Filesystem node: a plain file, or a directory with a permission flag
(`denied = true` makes `iterdir` raise `PermissionError`) and entries. -/
inductive FsNode where
  | file
  | dir (denied : Bool) (entries : List FsEntry)

/-- Directory entry: name, symlink flag and the node it points at. -/
inductive FsEntry where
  | mk (name : String) (symlink : Bool) (node : FsNode)

end

/-- Entry name accessor. -/
def FsEntry.name : FsEntry → String
  | .mk n _ _ => n

/-- Entry symlink flag accessor. -/
def FsEntry.symlink : FsEntry → Bool
  | .mk _ s _ => s

/-- Entry node accessor. -/
def FsEntry.node : FsEntry → FsNode
  | .mk _ _ n => n

/-- Python `Path.is_dir()`. -/
def FsNode.isDir : FsNode → Bool
  | .file => false
  | .dir _ _ => true

/-- `VaultScanner._safe_iterdir`: hidden entries and symlinks are skipped;
a `PermissionError` (modelled by the `denied` flag) yields no entries. -/
def safe_iterdir : FsNode → List FsEntry
  | .file => []
  | .dir denied entries =>
    if denied then []
    else entries.filter (fun e => !pyStartsWith e.name "." && !e.symlink)

/-- Python dict assignment `d[k] = v`: replace the value in place when the
key exists, append otherwise. -/
def dinsert {α : Type} : List (String × α) → String → α → List (String × α)
  | [], k, v => [(k, v)]
  | (k0, v0) :: rest, k, v =>
    if k0 == k then (k0, v) :: rest else (k0, v0) :: dinsert rest k v

/-- Level 3 of `VaultScanner.scan`: sorted names of subject directories. -/
def scanSubjects (para : FsNode) : List String :=
  sortStrings (((safe_iterdir para).filter (fun e => e.node.isDir)).map (fun e => e.name))

/-- Level 2 of `VaultScanner.scan`: PARA folders of one domain. -/
def scanParas (domainNode : FsNode) : List (String × List String) :=
  ((safe_iterdir domainNode).filter (fun e => e.node.isDir)).foldl
    (fun acc e => dinsert acc e.name (scanSubjects e.node)) []

/-- Level 1 of `VaultScanner.scan`: the full three-level structure of an
existing vault root. -/
def scanNode (root : FsNode) : VStructure :=
  ((safe_iterdir root).filter (fun e => e.node.isDir)).foldl
    (fun acc e => dinsert acc e.name (scanParas e.node)) []

/-- Errors `VaultScanner.scan` can raise. -/
inductive ScanErr where
  | fileNotFound
  | notADirectory
deriving Repr, DecidableEq

/-- `VaultScanner.scan`: raises `FileNotFoundError` when the vault root does
not exist (`none`); a root that exists but is not a directory raises
`NotADirectoryError` out of the uncaught `iterdir`. -/
def scan (root : Option FsNode) : Except ScanErr VStructure :=
  match root with
  | none => .error .fileNotFound
  | some .file => .error .notADirectory
  | some (.dir denied entries) => .ok (scanNode (.dir denied entries))

/-- Cache document fields, as read from the JSON cache file.  The outer
`Option` of `cachedAt` models key presence; the inner one models whether
`datetime.fromisoformat` succeeded (its `ValueError` is caught).  The JSON
keys are `cached_at`, `structure` and `ttl_hours`. -/
structure CacheDoc where
  cachedAt : Option (Option ℚ)
  structureVal : Option VStructure
  ttlHours : Option ℚ

/-- State of the cache file on disk. -/
inductive CacheFile where
  | missing
  | malformed
  | doc (d : CacheDoc)

/-- `VaultScanner._load_cache`: returns the cached structure only for a
well-formed, unexpired cache; `now` and `cachedAt` are times in hours. -/
def load_cache (now : ℚ) (f : CacheFile) : Option VStructure :=
  match f with
  | .missing => none
  | .malformed => none
  | .doc d =>
    match d.cachedAt, d.structureVal with
    | some tOpt, some s =>
      (match tOpt with
       | none => none
       | some cached_at =>
         let ttl_hours := d.ttlHours.getD DEFAULT_TTL_HOURS
         let expires_at := cached_at + ttl_hours
         if now ≥ expires_at then none else some s)
    | _, _ => none

/-- `VaultScanner.get_structure`: read-through cache.  The boolean of the
result records whether a fresh filesystem walk happened (the `_save_cache`
side effect is not modelled). -/
def get_structure (now : ℚ) (cache : CacheFile) (root : Option FsNode)
    (force_refresh : Bool) : Except ScanErr (VStructure × Bool) :=
  if force_refresh = false then
    match load_cache now cache with
    | some cached => .ok (cached, false)
    | none => (scan root).map (fun s => (s, true))
  else (scan root).map (fun s => (s, true))

/-- `VaultScanner.get_vocabulary`: flat, sorted, deduplicated lists derived
from `get_structure` (Python builds sets and sorts them). -/
def get_vocabulary (now : ℚ) (cache : CacheFile) (root : Option FsNode) :
    Except ScanErr Vocabulary :=
  (get_structure now cache root false).map (fun p =>
    { domains := sortedDedup (p.1.map (fun q => q.1))
      para_types := sortedDedup ((p.1.map (fun q => q.2.map (fun r => r.1))).flatten)
      subjects := sortedDedup ((p.1.map (fun q => (q.2.map (fun r => r.2)).flatten)).flatten) })

end VaultScanner

/-! Helper lemmas about list search, shared by several results below. -/

/-- A successful `find?` returns a satisfying member and splits the list at
the first satisfying element. -/
theorem find?_split {α : Type} (p : α → Bool) :
    ∀ (l : List α) (a : α), l.find? p = some a →
      a ∈ l ∧ p a = true ∧ ∃ pre post, l = pre ++ a :: post ∧ ∀ x ∈ pre, p x = false := by
  intro l
  induction l with
  | nil => intro a h; simp at h
  | cons x xs ih =>
    intro a h
    by_cases hx : p x = true
    · rw [List.find?_cons_of_pos _ hx] at h
      cases h
      exact ⟨List.mem_cons_self _ _, hx, [], xs, rfl, by simp⟩
    · have hx' : ¬ p x := hx
      rw [List.find?_cons_of_neg _ hx'] at h
      obtain ⟨hm, hp, pre, post, heq, hpre⟩ := ih a h
      refine ⟨List.mem_cons_of_mem _ hm, hp, x :: pre, post, by rw [heq]; rfl, ?_⟩
      intro y hy
      rcases List.mem_cons.mp hy with rfl | hy'
      · simpa using hx
      · exact hpre y hy'

/-- Searching a concatenation searches the left list first. -/
theorem find?_append_or {α : Type} (p : α → Bool) (l₁ l₂ : List α) :
    (l₁ ++ l₂).find? p =
      (match l₁.find? p with
       | some a => some a
       | none => l₂.find? p) := by
  induction l₁ with
  | nil => simp
  | cons x xs ih =>
    by_cases hx : p x = true
    · rw [List.cons_append, List.find?_cons_of_pos _ hx, List.find?_cons_of_pos _ hx]
    · have hx' : ¬ p x := hx
      rw [List.cons_append, List.find?_cons_of_neg _ hx', List.find?_cons_of_neg _ hx', ih]

/-- The boolean clamp primitive agrees with the order-theoretic `min`. -/
theorem pyMin_eq_min (a b : ℚ) : pyMin a b = min a b := by
  unfold pyMin
  cases h : Rat.blt b a with
  | false =>
    have hab : a ≤ b := h
    simp [min_eq_left hab]
  | true =>
    have hba : b < a := h
    simp [min_eq_right (le_of_lt hba)]

/-- The boolean clamp primitive agrees with the order-theoretic `max`. -/
theorem pyMax_eq_max (a b : ℚ) : pyMax a b = max a b := by
  unfold pyMax
  cases h : Rat.blt a b with
  | false =>
    have hba : b ≤ a := h
    simp [max_eq_left hba]
  | true =>
    have hab : a < b := h
    simp [max_eq_right (le_of_lt hab)]

namespace MessageClassifier

/-- Each string-level validator always succeeds with a value from its valid
set or its default. -/
theorem validate_domain_str_ok (s : String) (valids : List String) :
    ∃ d, validate_domain (.str s) valids = .ok d ∧
      (d ∈ valids ∨ d = DEFAULT_DOMAIN) := by
  unfold validate_domain
  by_cases hs : jTruthy (.str s) = false
  · rw [if_pos hs]
    exact ⟨_, rfl, Or.inr rfl⟩
  · rw [if_neg hs]
    cases h1 : valids.find? (fun v => (pyLower v) == (pyLower s)) with
    | some v => exact ⟨v, by simp [h1], Or.inl (find?_split _ _ _ h1).1⟩
    | none =>
      cases h2 : valids.find? (fun v => strIn (pyLower s) (pyLower v) || strIn (pyLower v) (pyLower s)) with
      | some v => exact ⟨v, by simp [h1, h2], Or.inl (find?_split _ _ _ h2).1⟩
      | none => exact ⟨_, by simp [h1, h2], Or.inr rfl⟩

/-- String-level `_validate_para` always succeeds with a valid PARA type. -/
theorem validate_para_str_ok (s : String) :
    ∃ p, validate_para (.str s) = .ok p ∧ p ∈ VALID_PARA_TYPES := by
  unfold validate_para
  by_cases hs : jTruthy (.str s) = false
  · rw [if_pos hs]
    exact ⟨_, rfl, by decide⟩
  · rw [if_neg hs]
    cases h1 : VALID_PARA_TYPES.find? (fun v => (pyLower v) == (pyLower s)) with
    | some v => exact ⟨v, by simp [h1], (find?_split _ _ _ h1).1⟩
    | none =>
      cases h2 : VALID_PARA_TYPES.find?
          (fun v => strIn (pyLower s) (pyLower v) || strIn (lastUnderscoreToken (pyLower v)) (pyLower s)) with
      | some v => exact ⟨v, by simp [h1, h2], (find?_split _ _ _ h2).1⟩
      | none => exact ⟨DEFAULT_PARA_TYPE, by simp [h1, h2], by decide⟩

/-- String-level `_validate_subject` always succeeds with a discovered
subject or the default. -/
theorem validate_subject_str_ok (s : String) (struct : VStructure)
    (domain para_type : String) :
    ∃ sub, validate_subject (.str s) struct domain para_type = .ok sub ∧
      (sub ∈ subjectsTierA struct domain para_type ∨ sub ∈ subjectsTierB struct domain ∨
        sub ∈ subjectsTierC struct ∨ sub = DEFAULT_SUBJECT) := by
  unfold validate_subject
  by_cases hs : jTruthy (.str s) = false
  · rw [if_pos hs]
    exact ⟨DEFAULT_SUBJECT, rfl, by simp⟩
  · rw [if_neg hs]
    by_cases hg : (pyLower s) == "general"
    · exact ⟨DEFAULT_SUBJECT, by simp [hg], by simp⟩
    · have hg' : ((pyLower s) == "general") = false := by simpa using hg
      cases h1 : (subjectsTierA struct domain para_type).find? (fun v => (pyLower v) == (pyLower s)) with
      | some v => exact ⟨v, by simp [hg', h1], Or.inl (find?_split _ _ _ h1).1⟩
      | none =>
        cases h2 : (subjectsTierB struct domain).find? (fun v => (pyLower v) == (pyLower s)) with
        | some v => exact ⟨v, by simp [hg', h1, h2], Or.inr (Or.inl (find?_split _ _ _ h2).1)⟩
        | none =>
          cases h3 : (subjectsTierC struct).find? (fun v => (pyLower v) == (pyLower s)) with
          | some v =>
            exact ⟨v, by simp [hg', h1, h2, h3], Or.inr (Or.inr (Or.inl (find?_split _ _ _ h3).1))⟩
          | none => exact ⟨DEFAULT_SUBJECT, by simp [hg', h1, h2, h3], by simp⟩

/-- String-level `_validate_category` always succeeds with a valid category. -/
theorem validate_category_str_ok (s : String) :
    ∃ c, validate_category (.str s) = .ok c ∧ c ∈ VALID_CATEGORIES := by
  unfold validate_category
  by_cases hs : jTruthy (.str s) = false
  · rw [if_pos hs]
    exact ⟨_, rfl, by decide⟩
  · rw [if_neg hs]
    cases h1 : VALID_CATEGORIES.find? (fun v => (pyLower v) == (pyLower s)) with
    | some v => exact ⟨v, by simp [h1], (find?_split _ _ _ h1).1⟩
    | none => exact ⟨DEFAULT_CATEGORY, by simp [h1], by decide⟩

end MessageClassifier

/-- C1 counterexample: a non-string raw field value reachable from model
output (for instance the decoded JSON number `5`, produced by a response
containing `\x7b"domain": 5\x7d`) makes every string-field normalizer raise
`AttributeError` on `.lower()`, contradicting the claim that the normalizers
never raise on any value the model may produce. -/
theorem c1_counterexample_nonstring_raises :
    MessageClassifier.validate_domain (.num 5) ["Home", "Work"] = .error .attributeError ∧
    MessageClassifier.validate_para (.num 5) = .error .attributeError ∧
    MessageClassifier.validate_subject (.num 5) [] "Personal" "1_Projects" = .error .attributeError ∧
    MessageClassifier.validate_category (.num 5) = .error .attributeError :=
  ⟨rfl, rfl, rfl, rfl⟩

/-- C1 (amended): for every string raw field value — including empty and
adversarial garbage strings — each field normalizer (`_validate_domain`,
`_validate_para`, `_validate_subject`, `_validate_category`) never raises
and never returns null: it returns a member of the field's valid set
(vocabulary or fixed enumeration) or the field's documented default.
Non-string truthy JSON values instead raise `AttributeError`. -/
theorem c1_validators_total_on_strings (s : String) (valids : List String)
    (struct : VStructure) (domain para_type : String) :
    (∃ d, MessageClassifier.validate_domain (.str s) valids = .ok d ∧
      (d ∈ valids ∨ d = MessageClassifier.DEFAULT_DOMAIN)) ∧
    (∃ p, MessageClassifier.validate_para (.str s) = .ok p ∧
      p ∈ MessageClassifier.VALID_PARA_TYPES) ∧
    (∃ sub, MessageClassifier.validate_subject (.str s) struct domain para_type = .ok sub ∧
      (sub ∈ MessageClassifier.subjectsTierA struct domain para_type ∨
       sub ∈ MessageClassifier.subjectsTierB struct domain ∨
       sub ∈ MessageClassifier.subjectsTierC struct ∨
       sub = MessageClassifier.DEFAULT_SUBJECT)) ∧
    (∃ c, MessageClassifier.validate_category (.str s) = .ok c ∧
      c ∈ MessageClassifier.VALID_CATEGORIES) :=
  ⟨MessageClassifier.validate_domain_str_ok s valids,
   MessageClassifier.validate_para_str_ok s,
   MessageClassifier.validate_subject_str_ok s struct domain para_type,
   MessageClassifier.validate_category_str_ok s⟩

/-- C4: every confidence value that coerces to a number is clamped to
`max 0 (min 1 value)`, so the result is always in `[0, 1]`; negative inputs
become `0`, inputs above `1` become `1`, and values already in the interval
(including exactly `0` and exactly `1`) are returned unchanged. -/
theorem c4_confidence_clamped (v : JVal) (q : ℚ) (h : pyFloat v = some q) :
    MessageClassifier.validate_confidence v = max 0 (min 1 q) ∧
    (0 : ℚ) ≤ MessageClassifier.validate_confidence v ∧
    MessageClassifier.validate_confidence v ≤ 1 ∧
    (q < 0 → MessageClassifier.validate_confidence v = 0) ∧
    (1 < q → MessageClassifier.validate_confidence v = 1) ∧
    (0 ≤ q → q ≤ 1 → MessageClassifier.validate_confidence v = q) := by
  have e : MessageClassifier.validate_confidence v = max 0 (min 1 q) := by
    unfold MessageClassifier.validate_confidence
    rw [h]
    show pyMax 0 (pyMin 1 q) = max 0 (min 1 q)
    rw [pyMax_eq_max, pyMin_eq_min]
  refine ⟨e, ?_, ?_, ?_, ?_, ?_⟩ <;> rw [e]
  · exact le_max_left 0 _
  · exact max_le (by norm_num) (min_le_left 1 q)
  · intro hq
    rw [min_eq_right (by linarith), max_eq_left (le_of_lt hq)]
  · intro hq
    rw [min_eq_left (le_of_lt hq)]
    norm_num
  · intro h0 h1
    rw [min_eq_right h1, max_eq_right h0]

/-- C4 witness: a model confidence of `1.7` is clamped to `1.0`. -/
theorem c4_confidence_clamped_witness :
    pyFloat (.num (17/10)) = some (17/10) ∧
    MessageClassifier.validate_confidence (.num (17/10)) = 1 :=
  ⟨rfl, (c4_confidence_clamped (.num (17/10)) (17/10) rfl).2.2.2.2.1 (by norm_num)⟩

/-- C6: for every nonempty raw domain string, `_validate_domain` returns a
vocabulary entry matching case-insensitively (restoring the vocabulary's
canonical casing); failing that, the first vocabulary entry related to the
raw value by substring containment in either direction; failing that, the
fixed default domain. -/
theorem c6_domain_normalization (s : String) (valids : List String) (h : s ≠ "") :
    ∃ d, MessageClassifier.validate_domain (.str s) valids = .ok d ∧
      ((d ∈ valids ∧ (pyLower d) = (pyLower s)) ∨
       ((∀ v ∈ valids, (pyLower v) ≠ (pyLower s)) ∧ d ∈ valids ∧
        (strIn (pyLower s) (pyLower d) || strIn (pyLower d) (pyLower s)) = true ∧
        (∃ pre post, valids = pre ++ d :: post ∧
          ∀ v ∈ pre, (strIn (pyLower s) (pyLower v) || strIn (pyLower v) (pyLower s)) = false)) ∨
       ((∀ v ∈ valids, (pyLower v) ≠ (pyLower s) ∧
          (strIn (pyLower s) (pyLower v) || strIn (pyLower v) (pyLower s)) = false) ∧
        d = MessageClassifier.DEFAULT_DOMAIN)) := by
  have ht : ¬ jTruthy (.str s) = false := by simp [jTruthy, h]
  unfold MessageClassifier.validate_domain
  rw [if_neg ht]
  cases h1 : valids.find? (fun v => (pyLower v) == (pyLower s)) with
  | some v =>
    obtain ⟨hm, hp, _⟩ := find?_split _ _ _ h1
    exact ⟨v, by simp [h1], Or.inl ⟨hm, by simpa using hp⟩⟩
  | none =>
    have hnone1 : ∀ v ∈ valids, (pyLower v) ≠ (pyLower s) := by
      intro v hv
      have := List.find?_eq_none.mp h1 v hv
      simpa using this
    cases h2 : valids.find? (fun v => strIn (pyLower s) (pyLower v) || strIn (pyLower v) (pyLower s)) with
    | some v =>
      obtain ⟨hm, hp, pre, post, heq, hpre⟩ := find?_split _ _ _ h2
      refine ⟨v, by simp [h1, h2], Or.inr (Or.inl ⟨hnone1, hm, hp, pre, post, heq, ?_⟩)⟩
      intro w hw
      exact hpre w hw
    | none =>
      have hnone2 : ∀ v ∈ valids, (strIn (pyLower s) (pyLower v) || strIn (pyLower v) (pyLower s)) = false := by
        intro v hv
        have := List.find?_eq_none.mp h2 v hv
        simpa using this
      exact ⟨MessageClassifier.DEFAULT_DOMAIN, by simp [h1, h2],
        Or.inr (Or.inr ⟨fun v hv => ⟨hnone1 v hv, hnone2 v hv⟩, rfl⟩)⟩

/-- C6 witness: with vocabulary `["Home", "Work"]`, the raw value `"work"`
is resolved with the vocabulary's canonical casing. -/
theorem c6_domain_normalization_witness :
    ("work" : String) ≠ "" ∧
    (∃ d, MessageClassifier.validate_domain (.str "work") ["Home", "Work"] = .ok d ∧
      ((d ∈ ["Home", "Work"] ∧ (pyLower d) = (pyLower "work")) ∨
       ((∀ v ∈ ["Home", "Work"], (pyLower v) ≠ (pyLower "work")) ∧ d ∈ ["Home", "Work"] ∧
        (strIn (pyLower "work") (pyLower d) || strIn (pyLower d) (pyLower "work")) = true ∧
        (∃ pre post, ["Home", "Work"] = pre ++ d :: post ∧
          ∀ v ∈ pre, (strIn (pyLower "work") (pyLower v) || strIn (pyLower v) (pyLower "work")) = false)) ∨
       ((∀ v ∈ ["Home", "Work"], (pyLower v) ≠ (pyLower "work") ∧
          (strIn (pyLower "work") (pyLower v) || strIn (pyLower v) (pyLower "work")) = false) ∧
        d = MessageClassifier.DEFAULT_DOMAIN))) :=
  ⟨by decide, c6_domain_normalization "work" ["Home", "Work"] (by decide)⟩

/-- Scenario: canonical casing is restored from the vocabulary. -/
theorem domain_scenario_case_restored :
    MessageClassifier.validate_domain (.str "work") ["Home", "Work"] = .ok "Work" := rfl

/-- Scenario: a raw domain with no exact or partial match yields the
default domain. -/
theorem domain_scenario_mars_defaults :
    MessageClassifier.validate_domain (.str "Mars") ["Home", "Work"] = .ok "Personal" := rfl

/-- C5: an empty or sentinel (`"general"`, case-insensitive) raw subject
resolves to the default subject regardless of vocabulary contents; any
other raw subject is resolved by the first case-insensitive exact match in
the concatenation of tier (a) (chosen domain and group), tier (b) (chosen
domain, all groups) and tier (c) (all domains), with the default subject
when all tiers are exhausted. -/
theorem c5_subject_tiers (s : String) (struct : VStructure) (domain para_type : String) :
    ((s = "" ∨ (pyLower s) = "general") →
      MessageClassifier.validate_subject (.str s) struct domain para_type =
        .ok MessageClassifier.DEFAULT_SUBJECT) ∧
    (s ≠ "" → (pyLower s) ≠ "general" →
      MessageClassifier.validate_subject (.str s) struct domain para_type =
        .ok (((MessageClassifier.subjectsTierA struct domain para_type ++
               MessageClassifier.subjectsTierB struct domain ++
               MessageClassifier.subjectsTierC struct).find?
                 (fun v => (pyLower v) == (pyLower s))).getD MessageClassifier.DEFAULT_SUBJECT)) := by
  constructor
  · intro h
    by_cases hs : s = ""
    · subst hs
      rfl
    · have hg : (pyLower s) = "general" := by
        rcases h with h' | h'
        · exact absurd h' hs
        · exact h'
      have ht : ¬ jTruthy (.str s) = false := by simp [jTruthy, hs]
      unfold MessageClassifier.validate_subject
      rw [if_neg ht]
      simp [hg]
  · intro hs hg
    have ht : ¬ jTruthy (.str s) = false := by simp [jTruthy, hs]
    have hg' : ((pyLower s) == "general") = false := by simpa using hg
    unfold MessageClassifier.validate_subject
    rw [if_neg ht]
    rw [find?_append_or, find?_append_or]
    cases h1 : (MessageClassifier.subjectsTierA struct domain para_type).find?
        (fun v => (pyLower v) == (pyLower s)) with
    | some v => simp [hg', h1]
    | none =>
      cases h2 : (MessageClassifier.subjectsTierB struct domain).find?
          (fun v => (pyLower v) == (pyLower s)) with
      | some v => simp [hg', h1, h2]
      | none =>
        cases h3 : (MessageClassifier.subjectsTierC struct).find?
            (fun v => (pyLower v) == (pyLower s)) with
        | some v => simp [hg', h1, h2, h3]
        | none => simp [hg', h1, h2, h3]

/-- C5 witness: the sentinel beats a vocabulary that itself contains a
subject spelled `"General"`. -/
theorem c5_subject_tiers_witness :
    MessageClassifier.validate_subject (.str "General") [("D", [("P", ["General"])])] "D" "P" =
      .ok MessageClassifier.DEFAULT_SUBJECT :=
  (c5_subject_tiers "General" [("D", [("P", ["General"])])] "D" "P").1 (Or.inr (by decide))

/-- C8: response-field extraction is total: the raw mapping is the decoded
JSON object of the first brace block when that decodes, and otherwise the
per-field regex extraction, in which a field is present exactly when its
pattern matched (absent fields are omitted, not defaulted). -/
theorem c8_parse_strategy (raw : String) :
    MessageClassifier.parsed_fields raw =
      (match MessageClassifier.parse_json_single raw with
       | some d => d
       | none => MessageClassifier.extract_with_regex raw) ∧
    (∀ k v, (k, v) ∈ MessageClassifier.extract_with_regex raw ↔
      (k ∈ MessageClassifier.msgFields ∧ MessageClassifier.extractField raw k = some v)) := by
  constructor
  · cases h : MessageClassifier.parse_json_single raw <;>
      simp [MessageClassifier.parsed_fields, h]
  · intro k v
    constructor
    · intro hmem
      rw [MessageClassifier.extract_with_regex, List.mem_filterMap] at hmem
      obtain ⟨k', hk', hf⟩ := hmem
      rw [Option.map_eq_some'] at hf
      obtain ⟨v', hv', heq⟩ := hf
      have hk : k' = k := congrArg Prod.fst heq
      have hv : v' = v := congrArg Prod.snd heq
      subst hk
      subst hv
      exact ⟨hk', hv'⟩
    · intro hkv
      rw [MessageClassifier.extract_with_regex, List.mem_filterMap]
      exact ⟨k, hkv.1, by rw [hkv.2]; rfl⟩

/-- Scenario: a model reply wrapping the JSON object in prose still parses,
and every field validates successfully. -/
theorem scenario_prose_wrapped_json :
    MessageClassifier.parse_response
      "Sure! \x7b\"domain\":\"Home\",\"para_type\":\"1_Projects\",\"subject\":\"kids\",\"category\":\"task\",\"confidence\":0.8,\"reasoning\":\"ok\"\x7d Hope this helps."
      ⟨["Home", "Work"], [], []⟩ [("Home", [("1_Projects", ["kids"])])] =
      .ok ⟨"Home", "1_Projects", "kids", "task", 4/5, "ok",
        some "Sure! \x7b\"domain\":\"Home\",\"para_type\":\"1_Projects\",\"subject\":\"kids\",\"category\":\"task\",\"confidence\":0.8,\"reasoning\":\"ok\"\x7d Hope this helps."⟩ := by
  with_unfolding_all rfl

/-- Scenario: when no field pattern matches, regex extraction returns the
empty mapping rather than defaults. -/
theorem scenario_regex_omits_absent_fields :
    MessageClassifier.extract_with_regex "no fields at all" = [] := rfl


/-- C7: in pipeline mode, for every triple of per-step results (after the
per-step fallback substitution), the aggregate confidence of the returned
result is the minimum of the three step confidences, and the aggregate
reasoning concatenates the three step reasons labelled by step. -/
theorem c7_pipeline_aggregation
    (r1 r2 r3 : String) (vocab : Vocabulary) (struct : VStructure) (sop message : String)
    (st1 st2 : Option (String × ℚ × String)) (st3 : Option (String × String × ℚ × String))
    (d e1 p e2 sj ct e3 : String) (c1 c2 c3 : ℚ)
    (h1 : MessageClassifier.parse_domain_step r1 vocab.domains = .ok st1)
    (hr1 : MessageClassifier.resolve_domain_step st1 = (d, some c1, e1))
    (h2 : MessageClassifier.parse_para_step r2 = .ok st2)
    (hr2 : MessageClassifier.resolve_para_step st2 = (p, some c2, e2))
    (h3 : MessageClassifier.parse_subject_category_step r3 struct d p = .ok st3)
    (hr3 : MessageClassifier.resolve_subject_category_step st3 = (sj, ct, some c3, e3)) :
    MessageClassifier.classify_pipeline (.ok (some r1)) (.ok (some r2)) (.ok (some r3))
        vocab struct sop message =
      (.ok ⟨d, p, sj, ct, min (min c1 c2) c3,
        "Pipeline: domain=" ++ e1 ++ "; para=" ++ e2 ++ "; subject+cat=" ++ e3,
        some ("domain: " ++ r1 ++ "\npara: " ++ r2 ++ "\nsubject_category: " ++ r3)⟩, 3) := by
  unfold MessageClassifier.classify_pipeline
  simp only [Option.getD_some, h1, h2, hr1, hr2]
  simp only [h3, hr3]
  simp only [pyMin_eq_min]

/-- C7 witness: step confidences 0.9, 0.4 and 0.8 aggregate to 0.4, and the
step reasons are concatenated with their step labels. -/
theorem c7_pipeline_aggregation_witness :
    MessageClassifier.classify_pipeline
      (.ok (some "\x7b\"domain\": \"Home\", \"confidence\": 0.9, \"reasoning\": \"d\"\x7d"))
      (.ok (some "\x7b\"para_type\": \"2_Areas\", \"confidence\": 0.4, \"reasoning\": \"p\"\x7d"))
      (.ok (some "\x7b\"subject\": \"kids\", \"category\": \"task\", \"confidence\": 0.8, \"reasoning\": \"s\"\x7d"))
      ⟨["Home"], [], []⟩ [("Home", [("2_Areas", ["kids"])])] "" "msg" =
      (.ok ⟨"Home", "2_Areas", "kids", "task", 2/5,
        "Pipeline: domain=d; para=p; subject+cat=s",
        some ("domain: \x7b\"domain\": \"Home\", \"confidence\": 0.9, \"reasoning\": \"d\"\x7d\npara: \x7b\"para_type\": \"2_Areas\", \"confidence\": 0.4, \"reasoning\": \"p\"\x7d\nsubject_category: \x7b\"subject\": \"kids\", \"category\": \"task\", \"confidence\": 0.8, \"reasoning\": \"s\"\x7d")⟩, 3) := by
  have h := c7_pipeline_aggregation
    "\x7b\"domain\": \"Home\", \"confidence\": 0.9, \"reasoning\": \"d\"\x7d"
    "\x7b\"para_type\": \"2_Areas\", \"confidence\": 0.4, \"reasoning\": \"p\"\x7d"
    "\x7b\"subject\": \"kids\", \"category\": \"task\", \"confidence\": 0.8, \"reasoning\": \"s\"\x7d"
    ⟨["Home"], [], []⟩ [("Home", [("2_Areas", ["kids"])])] "" "msg"
    (some ("Home", 9/10, "d")) (some ("2_Areas", 2/5, "p")) (some ("kids", "task", 4/5, "s"))
    "Home" "d" "2_Areas" "p" "kids" "task" "s" (9/10) (2/5) (4/5)
    (by with_unfolding_all rfl) rfl (by with_unfolding_all rfl) rfl
    (by with_unfolding_all rfl) rfl
  rw [show min (min ((9 : ℚ)/10) (2/5)) (4/5) = (2 : ℚ)/5 by norm_num] at h
  exact h



/-- C2 counterexample: when the completion client raises the typed
server-not-running error, `DomainClassifier.classify` does not re-raise: it
fabricates a defaulted result with domain `"unknown"` and confidence `0.0`
(after its one chat call), contradicting the claim that the classifier
re-raises typed infrastructure errors to the caller. -/
theorem c2_counterexample_domain_classifier_absorbs :
    DomainClassifier.classify (.error (.serverNotRunning "down")) ["Personal"] "hello" =
      (.ok ⟨"unknown", 0, .str "Error: Ollama server not running", none⟩, 1) := rfl

/-- C2 (amended): `MessageClassifier.classify` re-raises every typed client
error, in both single-shot and pipeline mode, without fabricating a result;
`DomainClassifier.classify` instead catches all typed client errors and
returns a defaulted `"unknown"` result with confidence `0.0`. -/
theorem c2_client_error_handling
    (e : OllamaErr) (vocab : Vocabulary) (struct : VStructure) (sop message : String)
    (o2 o3 : ChatOutcome) (valids : List String)
    (hmsg : pyStrip message ≠ "") (hvd : valids ≠ []) :
    MessageClassifier.classify .single (.error e) o2 o3 vocab struct sop message =
      (.error (.ollama e), 1) ∧
    MessageClassifier.classify .pipeline (.error e) o2 o3 vocab struct sop message =
      (.error (.ollama e), 1) ∧
    (∃ r, DomainClassifier.classify (.error e) valids message = (.ok r, 1) ∧
      r.domain = "unknown" ∧ r.confidence = 0) := by
  have hne : message ≠ "" := fun hq => hmsg (by rw [hq]; rfl)
  have h1 : (message == "") = false := by simpa using hne
  have h2 : (pyStrip message == "") = false := by simpa using hmsg
  have h3 : valids.isEmpty = false := by
    cases valids with
    | nil => exact absurd rfl hvd
    | cons a l => rfl
  refine ⟨rfl, rfl, ?_⟩
  cases e with
  | serverNotRunning m =>
    exact ⟨⟨"unknown", 0, .str "Error: Ollama server not running", none⟩,
      by simp [DomainClassifier.classify, h1, h2, h3], rfl, rfl⟩
  | timeout m =>
    exact ⟨⟨"unknown", 0, .str "Error: Ollama request timed out", none⟩,
      by simp [DomainClassifier.classify, h1, h2, h3], rfl, rfl⟩
  | modelNotFound m =>
    exact ⟨⟨"unknown", 0, .str ("Error: " ++ ollamaErrMsg (.modelNotFound m)), none⟩,
      by simp [DomainClassifier.classify, h1, h2, h3], rfl, rfl⟩
  | other m =>
    exact ⟨⟨"unknown", 0, .str ("Error: " ++ ollamaErrMsg (.other m)), none⟩,
      by simp [DomainClassifier.classify, h1, h2, h3], rfl, rfl⟩

/-- C2 witness: concrete instance with a timeout error, a nonempty message
and a nonempty vocabulary. -/
theorem c2_client_error_handling_witness :
    pyStrip "hi" ≠ "" ∧ (["Personal"] : List String) ≠ [] ∧
    (MessageClassifier.classify .single (.error (.timeout "t")) (.ok none) (.ok none)
        ⟨[], [], []⟩ [] "" "hi" = (.error (.ollama (.timeout "t")), 1) ∧
     MessageClassifier.classify .pipeline (.error (.timeout "t")) (.ok none) (.ok none)
        ⟨[], [], []⟩ [] "" "hi" = (.error (.ollama (.timeout "t")), 1) ∧
     (∃ r, DomainClassifier.classify (.error (.timeout "t")) ["Personal"] "hi" = (.ok r, 1) ∧
        r.domain = "unknown" ∧ r.confidence = 0)) :=
  ⟨by decide, by decide,
   c2_client_error_handling (.timeout "t") ⟨[], [], []⟩ [] "" "hi" (.ok none) (.ok none)
     ["Personal"] (by decide) (by decide)⟩

/-- C3 counterexample: on the empty input message, `MessageClassifier.classify`
(single-shot mode) still issues its chat call — the call count is 1 and a
client timeout surfaces — rather than short-circuiting with an
unknown-sentinel result and confidence `0.0` before contacting the client. -/
theorem c3_counterexample_empty_message_calls_client :
    MessageClassifier.classify .single (.error (.timeout "t")) (.ok none) (.ok none)
      ⟨["Personal"], [], []⟩ [] "" "" = (.error (.ollama (.timeout "t")), 1) := rfl

/-- C3 (amended): `DomainClassifier.classify` short-circuits on empty or
whitespace-only input, returning the explicit `"unknown"` sentinel with
confidence `0.0` and making no completion-client call; `MessageClassifier.classify`
has no such short-circuit and issues its chat call even for empty input. -/
theorem c3_empty_input_shortcircuit (message : String)
    (h : message = "" ∨ pyStrip message = "")
    (chatO : ChatOutcome) (valids : List String) (vocab : Vocabulary)
    (struct : VStructure) (sop : String) (o2 o3 : ChatOutcome) :
    DomainClassifier.classify chatO valids message =
      (.ok ⟨"unknown", 0, .str "Empty message cannot be classified", none⟩, 0) ∧
    (MessageClassifier.classify .single chatO o2 o3 vocab struct sop message).2 = 1 := by
  constructor
  · have hcond : (message == "" || pyStrip message == "") = true := by
      rcases h with h | h <;> simp [h]
    unfold DomainClassifier.classify
    rw [if_pos hcond]
  · show (MessageClassifier.classify_single chatO vocab struct sop message).2 = 1
    unfold MessageClassifier.classify_single
    cases chatO with
    | error e => rfl
    | ok content =>
      cases hp : MessageClassifier.parse_response (content.getD "") vocab struct with
      | ok r => simp [hp]
      | error pe => simp [hp]

/-- C3 witness: the empty string input. -/
theorem c3_empty_input_shortcircuit_witness :
    (("" : String) = "" ∨ pyStrip "" = "") ∧
    (DomainClassifier.classify (.ok (some "x")) ["Personal"] "" =
      (.ok ⟨"unknown", 0, .str "Empty message cannot be classified", none⟩, 0) ∧
     (MessageClassifier.classify .single (.ok (some "x")) (.ok none) (.ok none)
        ⟨["Personal"], [], []⟩ [] "" "").2 = 1) :=
  ⟨Or.inl rfl,
   c3_empty_input_shortcircuit "" (Or.inl rfl) (.ok (some "x")) ["Personal"]
     ⟨["Personal"], [], []⟩ [] "" (.ok none) (.ok none)⟩



/-- C9: a cached structure is used (short-circuiting the filesystem walk)
exactly when the cache file is a well-formed document and the current time
is strictly before `cached_at + ttl_hours`; an age equal to the TTL boundary
is expired, and a missing, unparseable or key-lacking cache file triggers a
fresh walk. -/
theorem c9_cache_ttl_strict (now : ℚ) (f : VaultScanner.CacheFile)
    (root : Option VaultScanner.FsNode) :
    (∀ s, VaultScanner.load_cache now f = some s ↔
      ∃ t ttl, f = .doc ⟨some (some t), some s, ttl⟩ ∧
        now < t + ttl.getD VaultScanner.DEFAULT_TTL_HOURS) ∧
    (∀ s, VaultScanner.load_cache now f = some s →
      VaultScanner.get_structure now f root false = .ok (s, false)) ∧
    (VaultScanner.load_cache now f = none →
      VaultScanner.get_structure now f root false =
        (VaultScanner.scan root).map (fun s => (s, true))) ∧
    (∀ (t : ℚ) (s : VStructure) (ttl : Option ℚ),
      VaultScanner.load_cache (t + ttl.getD VaultScanner.DEFAULT_TTL_HOURS)
        (.doc ⟨some (some t), some s, ttl⟩) = none) := by
  refine ⟨?_, ?_, ?_, ?_⟩
  · intro s
    constructor
    · intro h
      cases f with
      | missing => simp [VaultScanner.load_cache] at h
      | malformed => simp [VaultScanner.load_cache] at h
      | doc d =>
        obtain ⟨ca, sv, ttl⟩ := d
        cases ca with
        | none => simp [VaultScanner.load_cache] at h
        | some tOpt =>
          cases sv with
          | none => simp [VaultScanner.load_cache] at h
          | some s0 =>
            cases tOpt with
            | none => simp [VaultScanner.load_cache] at h
            | some t =>
              by_cases hle : now ≥ t + ttl.getD VaultScanner.DEFAULT_TTL_HOURS
              · simp [VaultScanner.load_cache, hle] at h
              · have hlt : now < t + ttl.getD VaultScanner.DEFAULT_TTL_HOURS := not_le.mp hle
                simp [VaultScanner.load_cache, hle] at h
                exact ⟨t, ttl, by rw [h], hlt⟩
    · rintro ⟨t, ttl, rfl, hlt⟩
      simp [VaultScanner.load_cache, not_le.mpr hlt]
  · intro s h
    simp [VaultScanner.get_structure, h]
  · intro h
    simp [VaultScanner.get_structure, h]
  · intro t s ttl
    simp [VaultScanner.load_cache]

/-- C9 witness: a cache written at time 0 with the default 6-hour TTL is
used at time 5 (no walk) and rejected exactly at the boundary time 6. -/
theorem c9_cache_ttl_strict_witness :
    VaultScanner.load_cache 5 (.doc ⟨some (some 0), some [("A", [])], none⟩) =
      some [("A", [])] ∧
    VaultScanner.get_structure 5 (.doc ⟨some (some 0), some [("A", [])], none⟩) none false =
      .ok ([("A", [])], false) ∧
    VaultScanner.load_cache ((0 : ℚ) + (none : Option ℚ).getD VaultScanner.DEFAULT_TTL_HOURS)
      (.doc ⟨some (some 0), some [("A", [])], none⟩) = none := by
  have h1 : VaultScanner.load_cache 5 (.doc ⟨some (some 0), some [("A", [])], none⟩) =
      some [("A", [])] := by with_unfolding_all rfl
  refine ⟨h1, ?_, ?_⟩
  · exact (c9_cache_ttl_strict 5 (.doc ⟨some (some 0), some [("A", [])], none⟩) none).2.1
      [("A", [])] h1
  · exact (c9_cache_ttl_strict 0 .missing none).2.2.2 0 [("A", [])] none

/-- C10: when the vault root path does not exist and no valid cache is
available, the scan raises `FileNotFoundError` and this propagates through
`get_structure` and `get_vocabulary` rather than yielding an empty
structure; permission errors on subtrees are instead absorbed as empty
entries and never make the scan fail. -/
theorem c10_missing_root_raises (now : ℚ) (f : VaultScanner.CacheFile)
    (h : VaultScanner.load_cache now f = none) :
    VaultScanner.get_structure now f none false = .error .fileNotFound ∧
    VaultScanner.get_vocabulary now f none = .error .fileNotFound ∧
    (∀ entries, VaultScanner.scanNode (.dir true entries) = []) ∧
    (∀ es, VaultScanner.scanNode
        (.dir false [.mk "Personal" false (.dir true es)]) = [("Personal", [])]) ∧
    (∀ denied entries, ∃ s, VaultScanner.scan (some (.dir denied entries)) = .ok s) := by
  refine ⟨?_, ?_, ?_, ?_, ?_⟩
  · simp [VaultScanner.get_structure, h, VaultScanner.scan, Except.map]
  · simp [VaultScanner.get_vocabulary, VaultScanner.get_structure, h, VaultScanner.scan,
      Except.map]
  · intro entries
    simp [VaultScanner.scanNode, VaultScanner.safe_iterdir]
  · intro es
    simp [VaultScanner.scanNode, VaultScanner.safe_iterdir, VaultScanner.scanParas,
      VaultScanner.dinsert, VaultScanner.FsEntry.name, VaultScanner.FsEntry.symlink,
      VaultScanner.FsEntry.node, VaultScanner.FsNode.isDir, pyStartsWith, listIsPrefix]
  · intro denied entries
    exact ⟨VaultScanner.scanNode (.dir denied entries), rfl⟩

/-- C10 witness: a missing cache file at time 0 together with a missing
vault root. -/
theorem c10_missing_root_raises_witness :
    VaultScanner.load_cache 0 .missing = none ∧
    (VaultScanner.get_structure 0 .missing none false = .error .fileNotFound ∧
     VaultScanner.get_vocabulary 0 .missing none = .error .fileNotFound ∧
     (∀ entries, VaultScanner.scanNode (.dir true entries) = []) ∧
     (∀ es, VaultScanner.scanNode
         (.dir false [.mk "Personal" false (.dir true es)]) = [("Personal", [])]) ∧
     (∀ denied entries, ∃ s, VaultScanner.scan (some (.dir denied entries)) = .ok s)) :=
  ⟨rfl, c10_missing_root_raises 0 .missing rfl⟩


end SecondBrain
